import Mathlib

/-!
Shallow embedding of `src/providers/config-file-provider.ts` from the
devdb-vscode repository: the config-file database-engine provider with its
three phases (`boot`, `canBeUsedInCurrentWorkspace`, `getDatabaseEngine`)
and the three per-entry resolvers (`sqliteConfigResolver`,
`mysqlConfigResolver`, `postgresConfigResolver`).

External collaborators (the config-service file reader, the sequelize
connector, the concrete engines' `boot`/`isOkay`, the `brief` string helper,
and `vscode.window.showErrorMessage`) are not part of the provider source.
They are modelled as an abstract environment `Env` whose boolean fields give
the outcome of each external live check, and as an event trace recording
validation attempts, engine boots and user-visible error messages.
-/

namespace DevDb

/-- Connection parameters handed to `getConnectionFor` (host, port, username,
password, database) — the fields of a server config entry other than `name`. -/
structure ConnInfo where
  host : String
  port : String
  username : String
  password : String
  database : String
deriving DecidableEq, Repr

/-- A server-type entry of the `.devdbrc` config file (`MysqlConfig` /
`PostgresConfig`). A missing `name` in the JSON and an empty-string `name`
are both falsy in the TypeScript checks (`!config.name`, `config.name || ''`),
so both are modelled as `name = ""`. -/
structure ServerConfig where
  name : String
  host : String
  port : String
  username : String
  password : String
  database : String
deriving DecidableEq, Repr

/-- The connection parameters of a server config entry. -/
def ServerConfig.conn (c : ServerConfig) : ConnInfo :=
  { host := c.host, port := c.port, username := c.username,
    password := c.password, database := c.database }

/-- One entry of the parsed config-file list, tagged by its `type` field.
`other` stands for an entry whose `type` is none of the four recognized
tags; the provider's loop tests `config.type` against each tag and does
nothing for such an entry. -/
inductive Config where
  | sqlite (path : String)
  | mysql (cfg : ServerConfig)
  | mariadb (cfg : ServerConfig)
  | postgres (cfg : ServerConfig)
  | other (tag : String)
deriving DecidableEq, Repr

/-- A concrete engine instance, identified by its construction data:
`SqliteJsEngine` is constructed from the path, `MysqlEngine` and
`PostgresEngine` from the connection obtained by `getConnectionFor`
(mariadb entries also go through `getConnectionFor('mysql', …)` and
`MysqlEngine`). Two engine values are the same instance iff they carry the
same construction data within one provider run. -/
inductive Engine where
  | sqlite (path : String)
  | mysql (conn : ConnInfo)
  | postgres (conn : ConnInfo)
deriving DecidableEq, Repr

/-- A cache entry (`EngineProviderCache`): identity, description, optional
details and the validated engine. -/
structure EngineProviderCache where
  id : String
  description : String
  details : Option String
  engine : Engine
deriving DecidableEq, Repr

/-- Observable external actions of one provider operation, in order:
user-visible error messages (`vscode.window.showErrorMessage`), live
validation attempts (engine `boot`+`isOkay` for sqlite, `getConnectionFor`
and engine `isOkay` for server types), and engine re-boots during selection. -/
inductive Event where
  | errorMsg (msg : String)
  | validateSqlite (path : String)
  | connectAttempt (kind : String) (conn : ConnInfo)
  | isOkayCheck (kind : String) (conn : ConnInfo)
  | bootEngine (e : Engine)
deriving DecidableEq, Repr

/-- Modelled from the spec: outcomes of the external collaborators absent
from `src/` (the concrete engines, the sequelize connector and the `brief`
string helper). `sqliteOk path` is the sqlite engine's `boot`-then-`isOkay`
and `getDatabase()` check for that path; `connMysql`/`connPostgres` tell
whether `getConnectionFor` yields a connection handle for the given
parameters; `mysqlOk`/`postgresOk` are the constructed engine's
`isOkay()`-and-`sequelize` check; `brief` abbreviates a path for display.
Per the spec these checks are deterministic per run and never raise. -/
structure Env where
  brief : String → String
  sqliteOk : String → Bool
  connMysql : ConnInfo → Bool
  connPostgres : ConnInfo → Bool
  mysqlOk : ConnInfo → Bool
  postgresOk : ConnInfo → Bool

/-- The provider's mutable fields: `cache` (undefined until resolution) and
the currently selected `engine`. -/
structure ProviderState where
  cache : Option (List EngineProviderCache)
  engine : Option Engine
deriving DecidableEq, Repr

/-- The provider's `boot()`: set `cache` and `engine` to `undefined`. -/
def boot (_ : ProviderState) : ProviderState :=
  { cache := none, engine := none }

/-- `sqliteConfigResolver`: construct `SqliteJsEngine` from the path, `boot`
it, and keep it iff `isOkay()` and `getDatabase()` succeed (collapsed into
`env.sqliteOk`); on failure show the fixed error message and yield nothing. -/
def sqliteConfigResolver (env : Env) (path : String) :
    Option EngineProviderCache × List Event :=
  if env.sqliteOk path then
    (some { id := path, description := env.brief path, details := some path,
            engine := .sqlite path },
     [.validateSqlite path])
  else
    (none, [.validateSqlite path,
            .errorMsg "The SQLite database specified in your config file is not valid."])

/-- `mysqlConfigResolver`: ask `getConnectionFor('mysql', …)` for a handle;
if it yields none, return silently (no error message). Otherwise construct
`MysqlEngine` and keep it iff `isOkay()` and `sequelize` succeed (collapsed
into `env.mysqlOk`); on that failure show an error naming the entry. -/
def mysqlConfigResolver (env : Env) (cfg : ServerConfig) :
    Option EngineProviderCache × List Event :=
  if env.connMysql cfg.conn then
    if env.mysqlOk cfg.conn then
      (some { id := cfg.name, description := cfg.name, details := none,
              engine := .mysql cfg.conn },
       [.connectAttempt "mysql" cfg.conn, .isOkayCheck "mysql" cfg.conn])
    else
      (none, [.connectAttempt "mysql" cfg.conn, .isOkayCheck "mysql" cfg.conn,
              .errorMsg ("The MySQL connection " ++ cfg.name ++
                " specified in your config file is not valid.")])
  else
    (none, [.connectAttempt "mysql" cfg.conn])

/-- `postgresConfigResolver`: same shape as the mysql resolver, with
`getConnectionFor('postgres', …)` and `PostgresEngine`. -/
def postgresConfigResolver (env : Env) (cfg : ServerConfig) :
    Option EngineProviderCache × List Event :=
  if env.connPostgres cfg.conn then
    if env.postgresOk cfg.conn then
      (some { id := cfg.name, description := cfg.name, details := none,
              engine := .postgres cfg.conn },
       [.connectAttempt "postgres" cfg.conn, .isOkayCheck "postgres" cfg.conn])
    else
      (none, [.connectAttempt "postgres" cfg.conn, .isOkayCheck "postgres" cfg.conn,
              .errorMsg ("The Postgres connection " ++ cfg.name ++
                " specified in your config file is not valid.")])
  else
    (none, [.connectAttempt "postgres" cfg.conn])

/-- One iteration of the `for (const config of configContent)` loop body:
the optional cache entry pushed, the events emitted, and whether the body
executed `return false` (the missing-name structural abort for server
types; the mariadb tag shares the mysql branch with db label `MariaDB`). -/
def configStep (env : Env) : Config → Option EngineProviderCache × List Event × Bool
  | .sqlite path =>
    let r := sqliteConfigResolver env path
    (r.1, r.2, false)
  | .mysql cfg =>
    if cfg.name = "" then
      (none, [.errorMsg ("The MySQL config file entry " ++ cfg.name ++
        " does not have a name.")], true)
    else
      let r := mysqlConfigResolver env cfg
      (r.1, r.2, false)
  | .mariadb cfg =>
    if cfg.name = "" then
      (none, [.errorMsg ("The MariaDB config file entry " ++ cfg.name ++
        " does not have a name.")], true)
    else
      let r := mysqlConfigResolver env cfg
      (r.1, r.2, false)
  | .postgres cfg =>
    if cfg.name = "" then
      (none, [.errorMsg ("The Postgres config file entry " ++ cfg.name ++
        " does not have a name.")], true)
    else
      let r := postgresConfigResolver env cfg
      (r.1, r.2, false)
  | .other _ => (none, [], false)

/-- The provider's resolution loop over the parsed config list, threading
the cache being built (`this.cache.push(connection)`); the `Bool` reports
the structural abort (`return false` on a missing server name), which stops
the loop with the cache as pushed so far. -/
def resolveLoop (env : Env) : List Config → List EngineProviderCache →
    List EngineProviderCache × List Event × Bool
  | [], cache => (cache, [], false)
  | c :: rest, cache =>
    match configStep env c with
    | (_, evs, true) => (cache, evs, true)
    | (entry, evs, false) =>
      match resolveLoop env rest (cache ++ entry.toList) with
      | (cache2, evs2, aborted) => (cache2, evs ++ evs2, aborted)

/-- `canBeUsedInCurrentWorkspace()`: `configContent` is the result of
`getConfigFileContent()` (modelled from the spec: `none` when the artifact
is absent or unparsable as a list, the parsed list otherwise). Returns the
updated provider state, the boolean result and the emitted events. On a
structural abort the result is `false`; otherwise it is
`this.cache.length > 0`. `if (!this.cache) this.cache = []` keeps an
existing cache list (an empty array is truthy), hence `Option.getD`. -/
def canBeUsedInCurrentWorkspace (env : Env) (configContent : Option (List Config))
    (st : ProviderState) : ProviderState × Bool × List Event :=
  match configContent with
  | none => (st, false, [])
  | some configs =>
    if configs.isEmpty then (st, false, [])
    else
      match resolveLoop env configs (st.cache.getD []) with
      | (cache1, evs, aborted) =>
        ({ st with cache := some cache1 },
         if aborted then false else decide (cache1.length > 0),
         evs)

/-- `getDatabaseEngine(option)`: with an option, look its id up in the cache
(`this.cache?.find(...)`); on a miss show the lookup error and return
`undefined` without touching `this.engine`; on a hit select that entry's
engine. Then re-`boot` the selected engine if set, and return it. -/
def getDatabaseEngine (st : ProviderState) (option : Option String) :
    ProviderState × Option Engine × List Event :=
  match option with
  | some optId =>
    match (st.cache.getD []).find? (fun c => c.id == optId) with
    | none => (st, none, [.errorMsg ("Could not find option with id " ++ optId)])
    | some matchedOption =>
      let st2 : ProviderState := { st with engine := some matchedOption.engine }
      (st2, some matchedOption.engine, [.bootEngine matchedOption.engine])
  | none =>
    match st.engine with
    | some e => (st, some e, [.bootEngine e])
    | none => (st, none, [])

/-- Whether a config entry triggers the structural missing-name abort: a
server-type entry whose `name` is falsy. -/
def badName : Config → Bool
  | .mysql cfg => cfg.name = ""
  | .mariadb cfg => cfg.name = ""
  | .postgres cfg => cfg.name = ""
  | _ => false

/-- The cache entry a config entry contributes (when its resolver succeeds). -/
def entryOf (env : Env) (c : Config) : Option EngineProviderCache :=
  (configStep env c).1

/-- The events one loop iteration emits for a config entry. -/
def eventsOf (env : Env) (c : Config) : List Event :=
  (configStep env c).2.1

/-- One loop iteration decomposes into its contributed entry, its events and
the missing-name abort flag. -/
theorem configStep_eq (env : Env) (c : Config) :
    configStep env c = (entryOf env c, eventsOf env c, badName c) := by
  cases c <;> first
    | rfl
    | (simp only [configStep, entryOf, eventsOf, badName]
       split <;> simp_all)

/-- On a list with no missing-name server entry, the loop never aborts: it
appends exactly the entries the resolvers produce and emits the per-entry
events in list order. -/
theorem resolveLoop_clean (env : Env) (cs : List Config) :
    ∀ cache : List EngineProviderCache, (∀ c ∈ cs, badName c = false) →
      resolveLoop env cs cache =
        (cache ++ cs.filterMap (entryOf env), cs.flatMap (eventsOf env), false) := by
  induction cs with
  | nil => intro cache _; simp [resolveLoop]
  | cons c rest ih =>
    intro cache h
    have hc : badName c = false := h c (by simp)
    have hrest : ∀ x ∈ rest, badName x = false := fun x hx => h x (by simp [hx])
    have hstep : configStep env c = (entryOf env c, eventsOf env c, false) := by
      rw [configStep_eq, hc]
    simp only [resolveLoop, hstep]
    rw [ih _ hrest]
    cases he : entryOf env c <;> simp [he]

/-- When the list splits as clean entries, then a missing-name server entry,
the loop aborts there: the cache keeps only the clean part's entries, the
events stop at the missing-name error, and the abort flag is set. -/
theorem resolveLoop_abort (env : Env) (b : Config) (s : List Config)
    (hb : badName b = true) (p : List Config) :
    ∀ cache : List EngineProviderCache, (∀ c ∈ p, badName c = false) →
      resolveLoop env (p ++ b :: s) cache =
        (cache ++ p.filterMap (entryOf env),
         p.flatMap (eventsOf env) ++ eventsOf env b, true) := by
  induction p with
  | nil =>
    intro cache _
    have hstep : configStep env b = (entryOf env b, eventsOf env b, true) := by
      rw [configStep_eq, hb]
    simp only [List.nil_append, resolveLoop, hstep]
    simp
  | cons c rest ih =>
    intro cache h
    have hc : badName c = false := h c (by simp)
    have hrest : ∀ x ∈ rest, badName x = false := fun x hx => h x (by simp [hx])
    have hstep : configStep env c = (entryOf env c, eventsOf env c, false) := by
      rw [configStep_eq, hc]
    simp only [List.cons_append, resolveLoop, hstep, List.append_eq]
    rw [ih _ hrest]
    cases he : entryOf env c <;> simp [he]

/-- An entry whose type tag matches none of the recognized kinds is
invisible to the loop: removing it changes nothing. -/
theorem resolveLoop_skip_other (env : Env) (tag : String) :
    ∀ (p s : List Config) (cache : List EngineProviderCache),
      resolveLoop env (p ++ .other tag :: s) cache = resolveLoop env (p ++ s) cache := by
  intro p
  induction p with
  | nil =>
    intro s cache
    simp only [List.nil_append, resolveLoop, configStep]
    rcases hr : resolveLoop env s cache with ⟨c2, e2, a2⟩
    simp [hr]
  | cons c rest ih =>
    intro s cache
    simp only [List.cons_append, resolveLoop, List.append_eq]
    rcases hs : configStep env c with ⟨entry, evs, ab⟩
    cases ab
    · dsimp only
      rw [ih]
    · rfl

/-- Resolution on a clean non-empty list: the cache becomes the old cache
(empty when unset) plus the produced entries, the result is the final
cache's non-emptiness, and the events are the per-entry events in order. -/
theorem canBe_clean (env : Env) (cs : List Config) (st : ProviderState)
    (hne : cs ≠ []) (hwf : ∀ c ∈ cs, badName c = false) :
    canBeUsedInCurrentWorkspace env (some cs) st =
      ({ st with cache := some (st.cache.getD [] ++ cs.filterMap (entryOf env)) },
       decide ((st.cache.getD [] ++ cs.filterMap (entryOf env)).length > 0),
       cs.flatMap (eventsOf env)) := by
  simp only [canBeUsedInCurrentWorkspace]
  rw [if_neg (by simpa using hne), resolveLoop_clean env cs _ hwf]
  simp

/-- Resolution on a list with a missing-name server entry after a clean
preamble: the result is `false`, the cache becomes the old cache plus the
preamble's entries, and the events stop at the missing-name error. -/
theorem canBe_abort (env : Env) (b : Config) (s : List Config)
    (hb : badName b = true) (p : List Config) (st : ProviderState)
    (hp : ∀ c ∈ p, badName c = false) :
    canBeUsedInCurrentWorkspace env (some (p ++ b :: s)) st =
      ({ st with cache := some (st.cache.getD [] ++ p.filterMap (entryOf env)) },
       false,
       p.flatMap (eventsOf env) ++ eventsOf env b) := by
  simp only [canBeUsedInCurrentWorkspace]
  rw [if_neg (by simp), resolveLoop_abort env b s hb p _ hp]
  simp

/-- Test environment in which every external check succeeds. -/
def envAll : Env :=
  { brief := fun s => s, sqliteOk := fun _ => true,
    connMysql := fun _ => true, connPostgres := fun _ => true,
    mysqlOk := fun _ => true, postgresOk := fun _ => true }

/-- Test environment in which `getConnectionFor('mysql', …)` yields no
connection handle. -/
def envNoConn : Env := { envAll with connMysql := fun _ => false }

/-- Test environment in which the sqlite engine's live check fails. -/
def envSqliteFail : Env := { envAll with sqliteOk := fun _ => false }

/-- A server config entry with a falsy (missing/empty) name. -/
def cfgNoName : ServerConfig :=
  { name := "", host := "localhost", port := "3306", username := "root",
    password := "secret", database := "app" }

/-- A well-formed server config entry. -/
def cfgNamed : ServerConfig :=
  { name := "primary", host := "localhost", port := "3306", username := "root",
    password := "secret", database := "app" }

/-- A pre-existing cache entry left over from an earlier resolution run. -/
def seedEntry : EngineProviderCache :=
  { id := "seed", description := "seed", details := none,
    engine := .sqlite "/tmp/seed.db" }

/-- A cache entry with identity `"a"`. -/
def entryA : EngineProviderCache :=
  { id := "a", description := "a", details := none, engine := .sqlite "/tmp/a.db" }

/-- A cache entry with identity `"b"`. -/
def entryB : EngineProviderCache :=
  { id := "b", description := "b", details := none, engine := .mysql cfgNamed.conn }

/-- Whether an event is a user-visible error message. -/
def isErrorEvent : Event → Bool
  | .errorMsg _ => true
  | _ => false

/-- C1 counterexample: on the list `[valid sqlite entry, nameless mysql
entry]` the provider returns `false` as claimed, but the cache does not
remain empty — the sqlite entry validated before the structural abort stays
cached, refuting the claim that the cache remains empty regardless of other
valid entries. -/
theorem C1_counterexample :
    (canBeUsedInCurrentWorkspace envAll
        (some [Config.sqlite "/tmp/app.db", Config.mysql cfgNoName])
        { cache := none, engine := none }).2.1 = false ∧
    (canBeUsedInCurrentWorkspace envAll
        (some [Config.sqlite "/tmp/app.db", Config.mysql cfgNoName])
        { cache := none, engine := none }).1.cache =
      some [{ id := "/tmp/app.db", description := "/tmp/app.db",
              details := some "/tmp/app.db", engine := .sqlite "/tmp/app.db" }] ∧
    ((canBeUsedInCurrentWorkspace envAll
        (some [Config.sqlite "/tmp/app.db", Config.mysql cfgNoName])
        { cache := none, engine := none }).1.cache.getD []).length = 1 := by
  refine ⟨rfl, rfl, rfl⟩

/-- C1 amended: a descriptor list that splits as clean entries, then a
server entry with a falsy name, makes `canBeUsedInCurrentWorkspace()`
return `false`; descriptors after the offending entry are not processed,
and the cache is set to the previous cache (empty when unset) plus the
entries validated from the descriptors before the offending one — so the
cache remains empty only when no earlier entry validated. -/
theorem C1_amended_abort (env : Env) (p : List Config) (b : Config) (s : List Config)
    (st : ProviderState) (hb : badName b = true) (hp : ∀ c ∈ p, badName c = false) :
    (canBeUsedInCurrentWorkspace env (some (p ++ b :: s)) st).2.1 = false ∧
    (canBeUsedInCurrentWorkspace env (some (p ++ b :: s)) st).1.cache =
      some (st.cache.getD [] ++ p.filterMap (entryOf env)) ∧
    (canBeUsedInCurrentWorkspace env (some (p ++ b :: s)) st).2.2 =
      p.flatMap (eventsOf env) ++ eventsOf env b := by
  rw [canBe_abort env b s hb p st hp]
  exact ⟨rfl, rfl, rfl⟩

/-- C1 amended, instantiated: sqlite entry, then nameless mysql entry, then
a further postgres entry; resolution returns `false` and caches exactly the
sqlite entry. -/
theorem C1_amended_abort_witness :
    (canBeUsedInCurrentWorkspace envAll
        (some ([Config.sqlite "/tmp/app.db"] ++
          Config.mysql cfgNoName :: [Config.postgres cfgNamed]))
        { cache := none, engine := none }).2.1 = false :=
  (C1_amended_abort envAll [Config.sqlite "/tmp/app.db"] (Config.mysql cfgNoName)
    [Config.postgres cfgNamed] { cache := none, engine := none }
    (by decide) (by decide)).1

/-- C2: on a freshly booted provider and a non-empty list of well-formed
entries, the cache becomes exactly the entries the resolvers validated, and
the call returns `true` iff some entry passed live validation, iff the
resulting cache is non-empty. -/
theorem C2_fresh_true_iff_validated (env : Env) (cs : List Config) (st : ProviderState)
    (hfresh : st.cache = none) (hne : cs ≠ []) (hwf : ∀ c ∈ cs, badName c = false) :
    (canBeUsedInCurrentWorkspace env (some cs) st).1.cache =
      some (cs.filterMap (entryOf env)) ∧
    ((canBeUsedInCurrentWorkspace env (some cs) st).2.1 = true ↔
      ∃ c ∈ cs, (entryOf env c).isSome) ∧
    ((canBeUsedInCurrentWorkspace env (some cs) st).2.1 = true ↔
      (canBeUsedInCurrentWorkspace env (some cs) st).1.cache.getD [] ≠ []) := by
  rw [canBe_clean env cs st hne hwf]
  refine ⟨by simp [hfresh], ?_, ?_⟩
  · simp [hfresh, List.length_pos, List.filterMap_eq_nil_iff, Option.isSome_iff_ne_none]
  · simp [hfresh, List.length_pos]

/-- C2 instantiated: a single well-formed mysql entry that validates yields
a `true` result and a one-entry cache. -/
theorem C2_fresh_true_iff_validated_witness :
    (canBeUsedInCurrentWorkspace envAll (some [Config.mysql cfgNamed])
        { cache := none, engine := none }).1.cache =
      some ([Config.mysql cfgNamed].filterMap (entryOf envAll)) ∧
    (canBeUsedInCurrentWorkspace envAll (some [Config.mysql cfgNamed])
        { cache := none, engine := none }).2.1 = true :=
  ⟨(C2_fresh_true_iff_validated envAll [Config.mysql cfgNamed]
      { cache := none, engine := none } rfl (by decide) (by decide)).1,
   (C2_fresh_true_iff_validated envAll [Config.mysql cfgNamed]
      { cache := none, engine := none } rfl (by decide) (by decide)).2.1.mpr
     (by decide)⟩

/-- C3: when the cache is already set from a prior run, a further
resolution over a non-empty well-formed list keeps the old entries,
appends the newly validated ones, and returns `true` iff the combined
cache is non-empty — so it returns `true` even when every current entry
fails validation, as long as the old cache was non-empty. -/
theorem C3_append_to_existing_cache (env : Env) (cs : List Config)
    (prev : List EngineProviderCache) (st : ProviderState)
    (hcache : st.cache = some prev) (hne : cs ≠ []) (hwf : ∀ c ∈ cs, badName c = false) :
    (canBeUsedInCurrentWorkspace env (some cs) st).1.cache =
      some (prev ++ cs.filterMap (entryOf env)) ∧
    ((canBeUsedInCurrentWorkspace env (some cs) st).2.1 = true ↔
      prev ++ cs.filterMap (entryOf env) ≠ []) := by
  rw [canBe_clean env cs st hne hwf]
  constructor
  · simp [hcache]
  · simp [hcache, List.length_pos]
    tauto

/-- C3 instantiated: with a seeded one-entry cache and a current list whose
only entry fails validation, the cache is unchanged and the call still
returns `true`. -/
theorem C3_append_to_existing_cache_witness :
    (canBeUsedInCurrentWorkspace envSqliteFail (some [Config.sqlite "/nope.db"])
        { cache := some [seedEntry], engine := none }).1.cache =
      some ([seedEntry] ++ [Config.sqlite "/nope.db"].filterMap (entryOf envSqliteFail)) ∧
    (canBeUsedInCurrentWorkspace envSqliteFail (some [Config.sqlite "/nope.db"])
        { cache := some [seedEntry], engine := none }).2.1 = true :=
  ⟨(C3_append_to_existing_cache envSqliteFail [Config.sqlite "/nope.db"] [seedEntry]
      { cache := some [seedEntry], engine := none } rfl (by decide) (by decide)).1,
   (C3_append_to_existing_cache envSqliteFail [Config.sqlite "/nope.db"] [seedEntry]
      { cache := some [seedEntry], engine := none } rfl (by decide) (by decide)).2.mpr
     (by decide)⟩

/-- C4: with a cache whose identities are unique and an entry `b` cached
under identity `B`, `getDatabaseEngine {id: B}` returns `b`'s engine (never
another entry's), leaves the cache unchanged, selects `b`'s engine, emits
exactly one engine re-boot and no validation events; calling it again for
the same identity returns the same engine value and re-boots it again. -/
theorem C4_selection_by_identity (st : ProviderState) (l : List EngineProviderCache)
    (b : EngineProviderCache) (B : String)
    (hcache : st.cache = some l) (hmem : b ∈ l) (hid : b.id = B)
    (huniq : ∀ a ∈ l, a.id = B → a = b) :
    (getDatabaseEngine st (some B)).2.1 = some b.engine ∧
    (getDatabaseEngine st (some B)).2.2 = [Event.bootEngine b.engine] ∧
    (getDatabaseEngine st (some B)).1.cache = st.cache ∧
    (getDatabaseEngine st (some B)).1.engine = some b.engine ∧
    (getDatabaseEngine (getDatabaseEngine st (some B)).1 (some B)).2.1 = some b.engine ∧
    (getDatabaseEngine (getDatabaseEngine st (some B)).1 (some B)).2.2 =
      [Event.bootEngine b.engine] := by
  have hfind : l.find? (fun c => c.id == B) = some b := by
    cases hf : l.find? (fun c => c.id == B) with
    | none =>
      exact absurd hid (by simpa using List.find?_eq_none.mp hf b hmem)
    | some a =>
      have ha : a.id = B := by simpa using List.find?_some hf
      rw [huniq a (List.mem_of_find?_eq_some hf) ha]
  simp [getDatabaseEngine, hcache, hfind]

/-- C4 instantiated: a two-entry cache with identities `a` and `b`;
selecting `b` twice yields `b`'s engine both times, with one re-boot each. -/
theorem C4_selection_by_identity_witness :
    (getDatabaseEngine { cache := some [entryA, entryB], engine := none }
        (some "b")).2.1 = some entryB.engine ∧
    (getDatabaseEngine
        (getDatabaseEngine { cache := some [entryA, entryB], engine := none }
          (some "b")).1 (some "b")).2.1 = some entryB.engine :=
  ⟨(C4_selection_by_identity { cache := some [entryA, entryB], engine := none }
      [entryA, entryB] entryB "b" rfl (by decide) (by decide) (by decide)).1,
   (C4_selection_by_identity { cache := some [entryA, entryB], engine := none }
      [entryA, entryB] entryB "b" rfl (by decide) (by decide) (by decide)).2.2.2.2.1⟩

/-- C5: `boot()` unconditionally clears cache and selected engine; before
any re-resolution, `getDatabaseEngine()` with no option yields no engine
silently, and with any identity option it yields no engine and reports the
lookup error for that id. -/
theorem C5_boot_clears (st : ProviderState) (optId : String) :
    boot st = { cache := none, engine := none } ∧
    getDatabaseEngine (boot st) none = ({ cache := none, engine := none }, none, []) ∧
    getDatabaseEngine (boot st) (some optId) =
      ({ cache := none, engine := none }, none,
       [Event.errorMsg ("Could not find option with id " ++ optId)]) := by
  exact ⟨rfl, rfl, rfl⟩

/-- C6: when `getConfigFileContent()` yields `undefined` (artifact absent or
unparsable as a list) or an empty list, resolution returns `false` at once,
the provider state — in particular its cache — is unchanged, and no events
(validations or error messages) occur. -/
theorem C6_absent_or_empty_noop (env : Env) (content : Option (List Config))
    (st : ProviderState) (h : content = none ∨ content = some []) :
    canBeUsedInCurrentWorkspace env content st = (st, false, []) := by
  rcases h with h | h <;> subst h <;> rfl

/-- C6 instantiated: an absent artifact on a fresh provider returns `false`
and leaves the cache unset. -/
theorem C6_absent_or_empty_noop_witness :
    canBeUsedInCurrentWorkspace envAll none { cache := none, engine := none } =
      ({ cache := none, engine := none }, false, []) :=
  C6_absent_or_empty_noop envAll none { cache := none, engine := none } (Or.inl rfl)

/-- C7 counterexample: a well-formed mysql entry for which `getConnectionFor`
yields no handle fails validation, but the resolver returns silently — the
event trace holds only the connection attempt and no user-visible error
message, refuting the claim that every live-validation failure surfaces an
error naming the offending entry. -/
theorem C7_counterexample :
    (canBeUsedInCurrentWorkspace envNoConn (some [Config.mysql cfgNamed])
        { cache := none, engine := none }).2.2 =
      [Event.connectAttempt "mysql" cfgNamed.conn] ∧
    ((canBeUsedInCurrentWorkspace envNoConn (some [Config.mysql cfgNamed])
        { cache := none, engine := none }).2.2.filter isErrorEvent) = [] ∧
    (canBeUsedInCurrentWorkspace envNoConn (some [Config.mysql cfgNamed])
        { cache := none, engine := none }).1.cache = some [] ∧
    (canBeUsedInCurrentWorkspace envNoConn (some [Config.mysql cfgNamed])
        { cache := none, engine := none }).2.1 = false := by
  refine ⟨rfl, rfl, rfl, rfl⟩

/-- C7 amended: engine-level validation failures are entry-scoped, never
batch-fatal: a failing entry adds no cache entry and resolution continues
through the remaining descriptors with their events and entries unaffected;
`isOkay`-stage failures surface a user-visible error (naming the entry for
server types, a generic message for sqlite), while connection-handle
acquisition failures are silent. -/
theorem C7_amended_entry_scoped (env : Env) (p : List Config) (c : Config)
    (s : List Config) (st : ProviderState)
    (hwf : ∀ x ∈ p ++ c :: s, badName x = false)
    (hfail : entryOf env c = none) :
    (canBeUsedInCurrentWorkspace env (some (p ++ c :: s)) st).1.cache =
      some (st.cache.getD [] ++
        (p.filterMap (entryOf env) ++ s.filterMap (entryOf env))) ∧
    (canBeUsedInCurrentWorkspace env (some (p ++ c :: s)) st).2.2 =
      p.flatMap (eventsOf env) ++ (eventsOf env c ++ s.flatMap (eventsOf env)) ∧
    (∀ cfg, c = Config.mysql cfg → env.connMysql cfg.conn = true →
      env.mysqlOk cfg.conn = false →
      eventsOf env c = [.connectAttempt "mysql" cfg.conn, .isOkayCheck "mysql" cfg.conn,
        .errorMsg ("The MySQL connection " ++ cfg.name ++
          " specified in your config file is not valid.")]) ∧
    (∀ path, c = Config.sqlite path → env.sqliteOk path = false →
      eventsOf env c = [.validateSqlite path,
        .errorMsg "The SQLite database specified in your config file is not valid."]) := by
  rw [canBe_clean env _ st (by simp) hwf]
  refine ⟨?_, ?_, ?_, ?_⟩
  · simp [List.filterMap_append, List.filterMap_cons, hfail]
  · simp [List.flatMap_append, List.flatMap_cons]
  · intro cfg hc hconn hok
    subst hc
    have hname : ¬cfg.name = "" := by
      have := hwf (Config.mysql cfg) (by simp)
      simpa [badName] using this
    simp [eventsOf, configStep, mysqlConfigResolver, hname, hconn, hok]
  · intro path hc hsq
    subst hc
    simp [eventsOf, configStep, sqliteConfigResolver, hsq]

/-- C7 amended, instantiated: a mysql entry whose connection cannot be
acquired sits between a valid sqlite entry and a valid postgres entry; the
cache ends up with exactly the two neighbours' entries. -/
theorem C7_amended_entry_scoped_witness :
    (canBeUsedInCurrentWorkspace envNoConn
        (some ([Config.sqlite "/tmp/app.db"] ++
          Config.mysql cfgNamed :: [Config.postgres cfgNamed]))
        { cache := none, engine := none }).1.cache =
      some ([] ++
        (List.filterMap (entryOf envNoConn) [Config.sqlite "/tmp/app.db"] ++
         List.filterMap (entryOf envNoConn) [Config.postgres cfgNamed])) :=
  (C7_amended_entry_scoped envNoConn [Config.sqlite "/tmp/app.db"]
    (Config.mysql cfgNamed) [Config.postgres cfgNamed]
    { cache := none, engine := none } (by decide) (by decide)).1

/-- C8: a fresh resolution of a two-entry list holding one sqlite entry and
one well-formed mysql entry with distinct identities (in either order),
both passing live validation, returns `true` and caches exactly two
entries; `getDatabaseEngine` then resolves the sqlite entry's path to the
sqlite engine and the mysql entry's name to the mysql engine. -/
theorem C8_round_trip (env : Env) (p : String) (cfg : ServerConfig) (cs : List Config)
    (horder : cs = [Config.sqlite p, Config.mysql cfg] ∨
      cs = [Config.mysql cfg, Config.sqlite p])
    (hname : cfg.name ≠ "") (hdist : p ≠ cfg.name)
    (hsq : env.sqliteOk p = true) (hconn : env.connMysql cfg.conn = true)
    (hok : env.mysqlOk cfg.conn = true) (st : ProviderState) (hfresh : st.cache = none) :
    (canBeUsedInCurrentWorkspace env (some cs) st).2.1 = true ∧
    ((canBeUsedInCurrentWorkspace env (some cs) st).1.cache.getD []).length = 2 ∧
    (getDatabaseEngine (canBeUsedInCurrentWorkspace env (some cs) st).1
        (some p)).2.1 = some (Engine.sqlite p) ∧
    (getDatabaseEngine (canBeUsedInCurrentWorkspace env (some cs) st).1
        (some cfg.name)).2.1 = some (Engine.mysql cfg.conn) := by
  have hsqe : entryOf env (Config.sqlite p) =
      some { id := p, description := env.brief p, details := some p,
             engine := .sqlite p } := by
    simp [entryOf, configStep, sqliteConfigResolver, hsq]
  have hmye : entryOf env (Config.mysql cfg) =
      some { id := cfg.name, description := cfg.name, details := none,
             engine := .mysql cfg.conn } := by
    simp [entryOf, configStep, mysqlConfigResolver, hname, hconn, hok]
  have hbeq1 : (p == cfg.name) = false := beq_eq_false_iff_ne.mpr hdist
  have hbeq2 : (cfg.name == p) = false := beq_eq_false_iff_ne.mpr (Ne.symm hdist)
  rcases horder with rfl | rfl <;>
    [skip; skip] <;>
    · rw [canBe_clean env _ st (by simp)
        (by intro c hc
            simp only [List.mem_cons, List.not_mem_nil, or_false] at hc
            rcases hc with rfl | rfl <;> simp [badName, hname])]
      refine ⟨?_, ?_, ?_, ?_⟩ <;>
        simp [hfresh, hsqe, hmye, getDatabaseEngine, hbeq1, hbeq2]

/-- C8 instantiated: sqlite path `/tmp/app.db` and mysql name `primary` in
one artifact, all live checks passing. -/
theorem C8_round_trip_witness :
    (canBeUsedInCurrentWorkspace envAll
        (some [Config.sqlite "/tmp/app.db", Config.mysql cfgNamed])
        { cache := none, engine := none }).2.1 = true ∧
    (getDatabaseEngine
        (canBeUsedInCurrentWorkspace envAll
          (some [Config.sqlite "/tmp/app.db", Config.mysql cfgNamed])
          { cache := none, engine := none }).1 (some "primary")).2.1 =
      some (Engine.mysql cfgNamed.conn) :=
  ⟨(C8_round_trip envAll "/tmp/app.db" cfgNamed
      [Config.sqlite "/tmp/app.db", Config.mysql cfgNamed] (Or.inl rfl)
      (by decide) (by decide) rfl rfl rfl { cache := none, engine := none } rfl).1,
   (C8_round_trip envAll "/tmp/app.db" cfgNamed
      [Config.sqlite "/tmp/app.db", Config.mysql cfgNamed] (Or.inl rfl)
      (by decide) (by decide) rfl rfl rfl { cache := none, engine := none } rfl).2.2.2⟩

/-- C9: a lookup for an identity absent from the cache reports the lookup
error and returns no engine, leaving the whole provider state — cache and
previously selected engine — unchanged; a subsequent call with no option
still returns the previously selected engine, re-booting it. -/
theorem C9_lookup_miss_keeps_selection (st : ProviderState)
    (l : List EngineProviderCache) (e : Engine) (X : String)
    (hcache : st.cache = some l) (hengine : st.engine = some e)
    (habs : ∀ c ∈ l, c.id ≠ X) :
    getDatabaseEngine st (some X) =
      (st, none, [Event.errorMsg ("Could not find option with id " ++ X)]) ∧
    getDatabaseEngine (getDatabaseEngine st (some X)).1 none =
      (st, some e, [Event.bootEngine e]) := by
  have hfind : l.find? (fun c => c.id == X) = none := by
    rw [List.find?_eq_none]
    intro x hx
    simp [habs x hx]
  have h1 : getDatabaseEngine st (some X) =
      (st, none, [Event.errorMsg ("Could not find option with id " ++ X)]) := by
    simp [getDatabaseEngine, hcache, hfind]
  refine ⟨h1, ?_⟩
  rw [h1]
  simp [getDatabaseEngine, hengine]

/-- C9 instantiated: a cache holding only identity `a` and a previously
selected engine; looking up `zzz` fails and preserves the selection. -/
theorem C9_lookup_miss_keeps_selection_witness :
    getDatabaseEngine { cache := some [entryA], engine := some entryB.engine }
        (some "zzz") =
      ({ cache := some [entryA], engine := some entryB.engine }, none,
       [Event.errorMsg ("Could not find option with id " ++ "zzz")]) ∧
    getDatabaseEngine
        (getDatabaseEngine { cache := some [entryA], engine := some entryB.engine }
          (some "zzz")).1 none =
      ({ cache := some [entryA], engine := some entryB.engine },
       some entryB.engine, [Event.bootEngine entryB.engine]) :=
  C9_lookup_miss_keeps_selection
    { cache := some [entryA], engine := some entryB.engine }
    [entryA] entryB.engine "zzz" rfl rfl (by decide)

/-- C10: an entry whose type tag is none of `sqlite`, `mysql`, `mariadb`,
`postgres` contributes no cache entry and no event (in particular no
user-visible error), and — as long as some recognized entry remains —
resolution behaves exactly as if the unknown entry were absent. -/
theorem C10_unknown_type_skipped (env : Env) (tag : String) (p s : List Config)
    (st : ProviderState) :
    entryOf env (Config.other tag) = none ∧
    eventsOf env (Config.other tag) = [] ∧
    (p ++ s ≠ [] →
      canBeUsedInCurrentWorkspace env (some (p ++ Config.other tag :: s)) st =
        canBeUsedInCurrentWorkspace env (some (p ++ s)) st) := by
  refine ⟨rfl, rfl, fun hne => ?_⟩
  simp only [canBeUsedInCurrentWorkspace]
  rw [resolveLoop_skip_other,
    if_neg (show ¬((p ++ Config.other tag :: s).isEmpty = true) by simp),
    if_neg (show ¬((p ++ s).isEmpty = true) by simpa using hne)]

/-- C10 instantiated: an entry with tag `mongodb` between a sqlite entry and
the end of the list is skipped without any effect. -/
theorem C10_unknown_type_skipped_witness :
    canBeUsedInCurrentWorkspace envAll
        (some ([Config.sqlite "/tmp/app.db"] ++ Config.other "mongodb" :: []))
        { cache := none, engine := none } =
      canBeUsedInCurrentWorkspace envAll (some ([Config.sqlite "/tmp/app.db"] ++ []))
        { cache := none, engine := none } :=
  (C10_unknown_type_skipped envAll "mongodb" [Config.sqlite "/tmp/app.db"] []
    { cache := none, engine := none }).2.2 (by decide)

end DevDb
